import Mathlib

set_option maxRecDepth 100000

/-!
Verification of the Typhoon CLI client-binding generator
(`cli/src/bindings.rs`, `cli/src/validation.rs`) against its
natural-language specification.

The Rust code is shallowly embedded: JSON IDL documents become a
structured `Idl` type whose `Option` fields model the dynamic accesses
(`as_str`, `as_array`, `as_bool`) with their `unwrap_or` defaults;
string building via `push_str`/`format!` becomes explicit `String`
appends and `List.foldl`; fallible operations (`?`-propagation,
`anyhow::bail!`) become `Except String`.  Filesystem effects are
modelled by the list of written files and the directory-listing input;
the outcome of `serde_json::from_str` on a file is carried as an
`Option Idl` on the directory entry (the parser itself is an external
library).  `ProgressBar` rendering and `println!` output are not
modelled except for the final summary message, whose text the code
fixes.
-/

/-! ### Basic string machinery (models Rust std primitives used) -/

/-- Models Rust `str::split(sep)`: empty input yields one empty segment,
consecutive separators yield empty segments. -/
def split_char (sep : Char) : List Char → List (List Char)
  | [] => [[]]
  | c :: rest =>
    let r := split_char sep rest
    if c = sep then [] :: r
    else
      match r with
      | [] => [[c]]
      | seg :: segs => (c :: seg) :: segs

/-- Concatenation of a list of strings with no separator. -/
def str_concat : List String → String
  | [] => ""
  | s :: rest => s ++ str_concat rest

/-- Joining with a separator; models Rust `Vec::join`. -/
def join_sep (sep : String) : List String → String
  | [] => ""
  | [s] => s
  | s :: rest => s ++ sep ++ join_sep sep rest

/-- Does `needle` occur as a prefix of `hay`? -/
def starts_with : List Char → List Char → Bool
  | [], _ => true
  | _ :: _, [] => false
  | a :: as_, b :: bs => a = b && starts_with as_ bs

/-- Number of positions of `hay` (suffixes, the empty one included) at
which `needle` occurs as a prefix. -/
def occ_list (needle : List Char) : List Char → Nat
  | [] => if starts_with needle [] then 1 else 0
  | c :: rest => (if starts_with needle (c :: rest) then 1 else 0) + occ_list needle rest

/-- Number of occurrences of `needle` inside `hay`. -/
def occ_str (needle hay : String) : Nat :=
  occ_list needle.toList hay.toList

/-- Substring test. -/
def is_sub_str (needle hay : String) : Bool :=
  decide (0 < occ_str needle hay)

/-- ASCII lowering of a string; models Rust `str::to_lowercase` on the
ASCII inputs this CLI compares (language names). -/
def ascii_lower (s : String) : String :=
  String.mk (s.toList.map Char.toLower)

/-- Rust `format!("{}", b)` on a `bool`. -/
def bool_str (b : Bool) : String :=
  if b then "true" else "false"

/-! ### Case conversion (`to_pascal_case`, `to_camel_case`) -/

/-- One segment of `to_pascal_case`: uppercase the first character,
keep the rest.  Models the Rust closure over `chars()`; faithful for
characters whose uppercase form is a single character (all ASCII). -/
def capitalize_word : List Char → List Char
  | [] => []
  | c :: rest => Char.toUpper c :: rest

/-- `to_pascal_case` from `bindings.rs`: split on underscore, uppercase
each segment's first character, concatenate. -/
def to_pascal_case (s : String) : String :=
  String.mk (List.flatten ((split_char '_' s.toList).map capitalize_word))

/-- `to_camel_case` from `bindings.rs`: PascalCase, then lowercase the
first character of the result. -/
def to_camel_case (s : String) : String :=
  match (to_pascal_case s).toList with
  | [] => ""
  | c :: rest => String.mk (Char.toLower c :: rest)

/-! ### The TypeScript type mapper (`map_to_typescript_type`) -/

/-- `map_to_typescript_type` from `bindings.rs`.  The Rust `match` on
`&str` literals is equality dispatch, rendered here as membership in
the literal alternative lists. -/
def map_to_typescript_type (rust_type : String) : String :=
  if rust_type ∈ ["u8", "u16", "u32", "u64", "u128", "i8", "i16", "i32", "i64", "i128"] then
    "number"
  else if rust_type = "bool" then "boolean"
  else if rust_type = "String" then "string"
  else if rust_type ∈ ["Pubkey", "publicKey"] then "PublicKey"
  else "any"

/-! ### IDL document model

Mirrors the dynamic JSON accesses of `bindings.rs`: every field the
code reads through `as_str` / `as_bool` / `as_array` is an `Option`,
with the `unwrap_or` default applied at the point of use, exactly as
in the source. -/

/-- One entry of `instruction["accounts"]`. -/
structure AccountRef where
  name : Option String
  isMut : Option Bool
  isSigner : Option Bool

/-- A named, typed field: one entry of `instruction["args"]` or of
`account["type"]["fields"]`.  `ty` models `field["type"].as_str()`
(a non-string type value yields `none`). -/
structure FieldDesc where
  name : Option String
  ty : Option String

/-- One entry of `idl["instructions"]`. -/
structure Instruction where
  name : Option String
  accounts : Option (List AccountRef)
  args : Option (List FieldDesc)

/-- One entry of `idl["accounts"]`; `fields` models
`account["type"]["fields"].as_array()`. -/
structure AccountDesc where
  name : Option String
  fields : Option (List FieldDesc)

/-- The parsed IDL document.  `address` models
`idl["metadata"]["address"].as_str()`. -/
structure Idl where
  address : Option String
  instructions : Option (List Instruction)
  accounts : Option (List AccountDesc)

/-! ### TypeScript emission -/

/-- `generate_type_imports`: PascalCase names of the accounts that have
a string `name`, joined with a comma. -/
def generate_type_imports (idl : Idl) : String :=
  join_sep ", " (((idl.accounts.getD []).filterMap (fun a => a.name)).map to_pascal_case)

/-- The parameter line appended for one account of an instruction
(the first per-account loop of `generate_typescript_method`). -/
def ts_account_param (account : AccountRef) : String :=
  "\n    " ++ to_camel_case (account.name.getD "unknown") ++ ": PublicKey;"

/-- The `keys:` entry appended for one account of an instruction
(the second per-account loop of `generate_typescript_method`): the
`isMut` / `isSigner` flags of the descriptor are rendered verbatim,
defaulting to `false` when absent, as `unwrap_or(false)` does. -/
def ts_account_key (account : AccountRef) : String :=
  "        \x7b pubkey: accounts." ++ to_camel_case (account.name.getD "unknown")
    ++ ", isWritable: " ++ bool_str (account.isMut.getD false)
    ++ ", isSigner: " ++ bool_str (account.isSigner.getD false) ++ " \x7d,\n"

/-- `generate_typescript_method` from `bindings.rs`: each `let` step
mirrors one `push_str` (the per-account loops are folds). -/
def generate_typescript_method (instruction : Instruction) : String :=
  let name := instruction.name.getD "unknown"
  let pascal_name := to_pascal_case name
  let method := "\n  async " ++ to_camel_case name ++ "("
  let method := method ++ "accounts: \x7b"
  let method := (instruction.accounts.getD []).foldl
    (fun m account => m ++ ts_account_param account) method
  let method := method ++ "\n  \x7d"
  let method :=
    match instruction.args with
    | some args => if args.isEmpty then method else method ++ (", args: " ++ pascal_name ++ "Args")
    | none => method
  let method := method ++ ") \x7b\n"
  let method := method ++ "    // TODO: Implement instruction encoding\n"
  let method := method ++ "    const instruction = new TransactionInstruction(\x7b\n"
  let method := method ++ "      keys: [\n"
  let method := (instruction.accounts.getD []).foldl
    (fun m account => m ++ ts_account_key account) method
  let method := method ++ "      ],\n"
  let method := method ++ "      programId: this.programId,\n"
  let method := method ++ "      data: Buffer.alloc(0), // TODO: Encode instruction data\n"
  let method := method ++ "    \x7d);\n"
  let method := method ++ "    return instruction;\n"
  let method := method ++ "  \x7d\n"
  method

/-- The fixed header of the generated TypeScript client, with its three
format holes (type imports, program id, PascalCase program name). -/
def ts_client_head (imports program_id pascal : String) : String :=
  "import \x7b Connection, PublicKey, Transaction, TransactionInstruction, Keypair \x7d from \x27@solana/web3.js\x27;\n"
  ++ "import * as borsh from \x27@coral-xyz/borsh\x27;\n"
  ++ "import \x7b " ++ imports ++ " \x7d from \x27./types\x27;\n\n"
  ++ "export const PROGRAM_ID = new PublicKey(\x27" ++ program_id ++ "\x27);\n\n"
  ++ "export class " ++ pascal ++ "Client \x7b\n"
  ++ "  constructor(\n    private connection: Connection,\n    private programId: PublicKey = PROGRAM_ID\n  ) \x7b\x7d\n"

/-- `generate_typescript_client`: header, one method per instruction in
document order, closing brace. -/
def generate_typescript_client (idl : Idl) (program_name : String) : String :=
  let program_id := idl.address.getD "11111111111111111111111111111111"
  let client := ts_client_head (generate_type_imports idl) program_id (to_pascal_case program_name)
  let client := (idl.instructions.getD []).foldl
    (fun c instruction => c ++ generate_typescript_method instruction) client
  client ++ "\x7d\n"

/-- The line emitted for one typed field (account field or instruction
arg): camelCase name, mapped type. -/
def ts_field_line (field : FieldDesc) : String :=
  "  " ++ to_camel_case (field.name.getD "unknown") ++ ": "
    ++ map_to_typescript_type (field.ty.getD "unknown") ++ ";\n"

/-- `generate_typescript_type`: one `export interface` per account
descriptor, one field line per descriptor field. -/
def generate_typescript_type (account : AccountDesc) : String :=
  let name := account.name.getD "Unknown"
  let type_def := "export interface " ++ to_pascal_case name ++ " \x7b\n"
  let type_def := (account.fields.getD []).foldl
    (fun t field => t ++ ts_field_line field) type_def
  type_def ++ "\x7d\n"

/-- `generate_instruction_args_type`: the `...Args` record for one
instruction. -/
def generate_instruction_args_type (instruction : Instruction) : String :=
  let name := instruction.name.getD "unknown"
  let type_def := "export interface " ++ to_pascal_case name ++ "Args \x7b\n"
  let type_def := (instruction.args.getD []).foldl
    (fun t arg => t ++ ts_field_line arg) type_def
  type_def ++ "\x7d\n"

/-- Header of the generated `types.ts`. -/
def ts_types_head : String :=
  "import \x7b PublicKey \x7d from \x27@solana/web3.js\x27;\n\n"

/-- `generate_typescript_types`: account interfaces, then the args
records of the instructions whose `args` array is present and
non-empty. -/
def generate_typescript_types (idl : Idl) : String :=
  let types := ts_types_head
  let types := (idl.accounts.getD []).foldl
    (fun t account => t ++ (generate_typescript_type account ++ "\n")) types
  let types := (idl.instructions.getD []).foldl
    (fun t instruction =>
      match instruction.args with
      | some args => if args.isEmpty then t else t ++ (generate_instruction_args_type instruction ++ "\n")
      | none => t) types
  types

/-- The generated `package.json` (verbatim template from
`generate_typescript_bindings`). -/
def ts_package_json (program_name : String) : String :=
  "\x7b\n  \"name\": \"@typhoon/" ++ program_name ++ "-sdk\",\n  \"version\": \"0.1.0\",\n"
  ++ "  \"description\": \"TypeScript SDK for " ++ program_name ++ " program\",\n"
  ++ "  \"main\": \"lib/index.js\",\n  \"types\": \"lib/index.d.ts\",\n"
  ++ "  \"scripts\": \x7b\n    \"build\": \"tsc\",\n    \"test\": \"jest\"\n  \x7d,\n"
  ++ "  \"dependencies\": \x7b\n    \"@solana/web3.js\": \"^1.87.0\",\n    \"@coral-xyz/borsh\": \"^0.29.0\"\n  \x7d,\n"
  ++ "  \"devDependencies\": \x7b\n    \"typescript\": \"^5.0.0\",\n    \"@types/jest\": \"^29.0.0\",\n    \"jest\": \"^29.0.0\"\n  \x7d\n\x7d"

/-- The generated `tsconfig.json` (constant in the source). -/
def ts_tsconfig : String :=
  "\x7b\n  \"compilerOptions\": \x7b\n    \"target\": \"es2020\",\n    \"module\": \"commonjs\",\n"
  ++ "    \"lib\": [\"es2020\"],\n    \"outDir\": \"./lib\",\n    \"rootDir\": \"./\",\n"
  ++ "    \"strict\": true,\n    \"esModuleInterop\": true,\n    \"skipLibCheck\": true,\n"
  ++ "    \"forceConsistentCasingInFileNames\": true,\n    \"declaration\": true,\n"
  ++ "    \"declarationMap\": true,\n    \"sourceMap\": true\n  \x7d,\n"
  ++ "  \"include\": [\"**/*.ts\"],\n  \"exclude\": [\"node_modules\", \"lib\"]\n\x7d"

/-! ### Swift, Kotlin and Rust emission

These three generators never read the IDL document: in the source they
receive `idl_path` but use only `idl_path.file_stem()` (the `stem`
argument here) besides `program_name`. -/

/-- A file written by the generator: path components below the output
root, and content. -/
structure WrittenFile where
  path : List String
  content : String

/-- The generated `Package.swift` (verbatim template). -/
def swift_package_manifest (program_name : String) : String :=
  let p := to_pascal_case program_name
  "// swift-tools-version: 5.7\nimport PackageDescription\n\nlet package = Package(\n"
  ++ "    name: \"" ++ p ++ "SDK\",\n"
  ++ "    platforms: [\n        .macOS(.v12),\n        .iOS(.v15)\n    ],\n"
  ++ "    products: [\n        .library(\n            name: \"" ++ p ++ "SDK\",\n"
  ++ "            targets: [\"" ++ p ++ "SDK\"]\n        ),\n    ],\n"
  ++ "    dependencies: [\n        .package(url: \"https://github.com/solana-mobile/solana-swift\", from: \"1.0.0\")\n    ],\n"
  ++ "    targets: [\n        .target(\n            name: \"" ++ p ++ "SDK\",\n"
  ++ "            dependencies: [\n                .product(name: \"Solana\", package: \"solana-swift\")\n            ]\n        ),\n"
  ++ "        .testTarget(\n            name: \"" ++ p ++ "SDKTests\",\n"
  ++ "            dependencies: [\"" ++ p ++ "SDK\"]\n        ),\n    ]\n)"

/-- The generated `Client.swift`; the program-id literal is the IDL
file stem. -/
def swift_client (stem program_name : String) : String :=
  let p := to_pascal_case program_name
  "import Foundation\nimport Solana\n\npublic struct " ++ p ++ "Client \x7b\n"
  ++ "    private let connection: Connection\n    private let programId: PublicKey\n    \n"
  ++ "    public init(connection: Connection, programId: PublicKey = \"" ++ stem ++ "\") \x7b\n"
  ++ "        self.connection = connection\n        self.programId = programId\n    \x7d\n    \n"
  ++ "    // TODO: Implement methods for each instruction\n\x7d\n"

/-- `generate_swift_bindings`: writes the package manifest and the
client stub. -/
def generate_swift_bindings (stem program_name : String) : List WrittenFile :=
  [ ⟨["swift", program_name, "Package.swift"], swift_package_manifest program_name⟩,
    ⟨["swift", program_name, "Sources", to_pascal_case program_name ++ "SDK", "Client.swift"],
      swift_client stem program_name⟩ ]

/-- The generated `build.gradle.kts` (verbatim template). -/
def kotlin_build_gradle (program_name : String) : String :=
  "plugins \x7b\n    kotlin(\"jvm\") version \"1.9.0\"\n    `maven-publish`\n\x7d\n\n"
  ++ "group = \"com.typhoon." ++ program_name ++ "\"\nversion = \"0.1.0\"\n\n"
  ++ "repositories \x7b\n    mavenCentral()\n\x7d\n\n"
  ++ "dependencies \x7b\n    implementation(\"com.solana:solana-kotlin:1.0.0\")\n"
  ++ "    implementation(\"org.jetbrains.kotlinx:kotlinx-coroutines-core:1.7.0\")\n"
  ++ "    testImplementation(kotlin(\"test\"))\n\x7d\n\n"
  ++ "tasks.test \x7b\n    useJUnitPlatform()\n\x7d"

/-- The generated `Client.kt`; the program-id literal is the IDL file
stem. -/
def kotlin_client (stem program_name : String) : String :=
  "package com.typhoon." ++ program_name ++ "\n\n"
  ++ "import com.solana.core.PublicKey\nimport com.solana.core.Transaction\nimport com.solana.rpc.Connection\n\n"
  ++ "class " ++ to_pascal_case program_name ++ "Client(\n"
  ++ "    private val connection: Connection,\n"
  ++ "    private val programId: PublicKey = PublicKey(\"" ++ stem ++ "\")\n"
  ++ ") \x7b\n    // TODO: Implement methods for each instruction\n\x7d\n"

/-- `generate_kotlin_bindings`. -/
def generate_kotlin_bindings (stem program_name : String) : List WrittenFile :=
  [ ⟨["kotlin", program_name, "build.gradle.kts"], kotlin_build_gradle program_name⟩,
    ⟨["kotlin", program_name, "src", "main", "kotlin", "com", "typhoon", program_name, "Client.kt"],
      kotlin_client stem program_name⟩ ]

/-- The generated `Cargo.toml` (verbatim template). -/
def rust_cargo_toml (program_name : String) : String :=
  "[package]\nname = \"" ++ program_name ++ "-client\"\nversion = \"0.1.0\"\nedition = \"2021\"\n\n"
  ++ "[dependencies]\nsolana-sdk = \"2.1\"\nsolana-client = \"2.1\"\nborsh = \"1.5\"\nthiserror = \"1.0\"\n"

/-- The generated `lib.rs`; the program-id literal is the IDL file
stem. -/
def rust_lib (stem program_name : String) : String :=
  let p := to_pascal_case program_name
  "use solana_sdk::\x7b\n    instruction::\x7bAccountMeta, Instruction\x7d,\n    pubkey::Pubkey,\n    signer::Signer,\n\x7d;\n\n"
  ++ "pub const PROGRAM_ID: Pubkey = solana_sdk::pubkey!(\"" ++ stem ++ "\");\n\n"
  ++ "pub struct " ++ p ++ "Client \x7b\n    program_id: Pubkey,\n\x7d\n\n"
  ++ "impl " ++ p ++ "Client \x7b\n    pub fn new() -> Self \x7b\n        Self \x7b\n            program_id: PROGRAM_ID,\n        \x7d\n    \x7d\n\n"
  ++ "    pub fn with_program_id(program_id: Pubkey) -> Self \x7b\n        Self \x7b program_id \x7d\n    \x7d\n\n"
  ++ "    // TODO: Implement instruction builders\n\x7d\n"

/-- `generate_rust_bindings`. -/
def generate_rust_bindings (stem program_name : String) : List WrittenFile :=
  [ ⟨["rust", program_name, "Cargo.toml"], rust_cargo_toml program_name⟩,
    ⟨["rust", program_name, "src", "lib.rs"], rust_lib stem program_name⟩ ]

/-! ### Validation and orchestration (`generate_bindings`) -/

/-- The allowed language names of `validate_language_name`. -/
def valid_languages : List String := ["typescript", "ts", "swift", "kotlin", "rust"]

/-- `validate_language_name` from `validation.rs`: membership of the
lowercased name, `anyhow::bail!` otherwise. -/
def validate_language_name (language : String) : Except String Unit :=
  if valid_languages.contains (ascii_lower language) then Except.ok ()
  else Except.error ("Unsupported language \x27" ++ language
    ++ "\x27. Available languages: " ++ join_sep ", " valid_languages)

/-- The `for language in languages { validate_language_name(language)?; }`
loop: first failure propagates. -/
def validate_languages : List String → Except String Unit
  | [] => Except.ok ()
  | l :: rest =>
    match validate_language_name l with
    | Except.error e => Except.error e
    | Except.ok () => validate_languages rest

/-- A directory entry of `target/idl`: file stem, extension, and the
outcome of `serde_json::from_str` on its contents (`none` models a
parse failure; the parser is the external `serde_json` library). -/
structure DirEntry where
  stem : String
  ext : Option String
  parsed : Option Idl

/-- The (abstracted) error text of a failed `serde_json::from_str`. -/
def idl_parse_error : String := "failed to parse IDL JSON"

/-- `generate_typescript_bindings`: parse the document, then write
`index.ts`, `types.ts`, `package.json` and `tsconfig.json`.  A parse
failure propagates before any file is written. -/
def generate_typescript_bindings (entry : DirEntry) (program_name : String) :
    Except String (List WrittenFile) :=
  match entry.parsed with
  | none => Except.error idl_parse_error
  | some idl =>
    Except.ok
      [ ⟨["typescript", program_name, "index.ts"], generate_typescript_client idl program_name⟩,
        ⟨["typescript", program_name, "types.ts"], generate_typescript_types idl⟩,
        ⟨["typescript", program_name, "package.json"], ts_package_json program_name⟩,
        ⟨["typescript", program_name, "tsconfig.json"], ts_tsconfig⟩ ]

/-- The `match language.as_str()` dispatch inside the orchestration
loop.  `Except.ok none` is the `_` arm: warn and `continue`. -/
def dispatch_language (language : String) (entry : DirEntry) (program_name : String) :
    Except String (Option (List WrittenFile)) :=
  if language = "typescript" ∨ language = "ts" then
    (generate_typescript_bindings entry program_name).map some
  else if language = "swift" then
    Except.ok (some (generate_swift_bindings entry.stem program_name))
  else if language = "kotlin" then
    Except.ok (some (generate_kotlin_bindings entry.stem program_name))
  else if language = "rust" then
    Except.ok (some (generate_rust_bindings entry.stem program_name))
  else
    Except.ok none

/-- Observable state of one `generate_bindings` run: files written so
far, warnings printed to stderr, and the `completed` counter (which
the `continue` arm skips). -/
structure GenState where
  written : List WrittenFile
  warnings : List String
  completed : Nat

/-- One (program, language) pair of the inner loop. -/
def run_language (st : GenState) (entry : DirEntry) (language : String) :
    GenState × Except String Unit :=
  match dispatch_language language entry entry.stem with
  | Except.error e => (st, Except.error e)
  | Except.ok none =>
    ({ st with warnings := st.warnings ++ ["Unsupported language: " ++ language] }, Except.ok ())
  | Except.ok (some files) =>
    ({ st with written := st.written ++ files, completed := st.completed + 1 }, Except.ok ())

/-- The inner `for language in languages` loop; a `?` failure aborts. -/
def run_languages (entry : DirEntry) : List String → GenState → GenState × Except String Unit
  | [], st => (st, Except.ok ())
  | l :: rest, st =>
    match run_language st entry l with
    | (st2, Except.ok ()) => run_languages entry rest st2
    | (st2, Except.error e) => (st2, Except.error e)

/-- The outer `for idl_path in &idl_files` loop. -/
def run_files (languages : List String) : List DirEntry → GenState → GenState × Except String Unit
  | [], st => (st, Except.ok ())
  | f :: rest, st =>
    match run_languages f languages st with
    | (st2, Except.ok ()) => run_files languages rest st2
    | (st2, Except.error e) => (st2, Except.error e)

/-- `generate_bindings` from `bindings.rs`: validate the requested
languages, require the IDL directory and at least one `.json` file in
it, then run the nested loop; on success the returned string is the
final summary message. -/
def generate_bindings (languages : List String) (idl_dir_exists : Bool)
    (entries : List DirEntry) : GenState × Except String String :=
  match validate_languages languages with
  | Except.error e => (⟨[], [], 0⟩, Except.error e)
  | Except.ok () =>
    if idl_dir_exists then
      let idl_files := entries.filter (fun e => e.ext = some "json")
      if idl_files.isEmpty then
        (⟨[], [], 0⟩, Except.error "No IDL files found in target/idl/")
      else
        match run_files languages idl_files ⟨[], [], 0⟩ with
        | (st, Except.ok ()) =>
          (st, Except.ok ("Generated bindings for " ++ toString idl_files.length
            ++ " programs in " ++ toString languages.length ++ " languages"))
        | (st, Except.error e) => (st, Except.error e)
    else
      (⟨[], [], 0⟩, Except.error "No IDL files found. Run \x27typhoon build --idl\x27 first.")

/-! ### Helper lemmas -/

/-- A `push_str` loop appends the rendered items, in order, after the
accumulator. -/
theorem foldl_append_concat {α : Type} (g : α → String) :
    ∀ (l : List α) (init : String),
      l.foldl (fun m a => m ++ g a) init = init ++ str_concat (l.map g)
  | [], init => by simp [str_concat, String.append_empty]
  | a :: rest, init => by
    rw [List.foldl_cons, foldl_append_concat g rest (init ++ g a)]
    rw [List.map_cons]
    show init ++ g a ++ str_concat (rest.map g) = init ++ (g a ++ str_concat (rest.map g))
    rw [String.append_assoc]

/-- Decomposition of `generate_typescript_method`: signature head, the
optional args parameter, then the fixed body around the ordered
`keys:` entries. -/
theorem generate_typescript_method_decomp (instruction : Instruction) :
    generate_typescript_method instruction =
      "\n  async " ++ to_camel_case (instruction.name.getD "unknown") ++ "(" ++ "accounts: \x7b"
      ++ str_concat ((instruction.accounts.getD []).map ts_account_param)
      ++ "\n  \x7d"
      ++ (if (instruction.args.getD []).isEmpty then ""
          else ", args: " ++ to_pascal_case (instruction.name.getD "unknown") ++ "Args")
      ++ ") \x7b\n"
      ++ "    // TODO: Implement instruction encoding\n"
      ++ "    const instruction = new TransactionInstruction(\x7b\n"
      ++ "      keys: [\n"
      ++ str_concat ((instruction.accounts.getD []).map ts_account_key)
      ++ "      ],\n"
      ++ "      programId: this.programId,\n"
      ++ "      data: Buffer.alloc(0), // TODO: Encode instruction data\n"
      ++ "    \x7d);\n"
      ++ "    return instruction;\n"
      ++ "  \x7d\n" := by
  simp only [generate_typescript_method]
  rw [foldl_append_concat, foldl_append_concat]
  cases h : instruction.args with
  | none =>
    simp [h, String.append_assoc, String.append_empty]
  | some args =>
    cases he : args.isEmpty <;>
      simp [h, he, String.append_assoc, String.append_empty]

/-- The contribution of one instruction to `types.ts`: nothing when its
`args` array is absent or empty, its args record and a newline
otherwise. -/
def ts_args_type_entry (instruction : Instruction) : String :=
  match instruction.args with
  | some args => if args.isEmpty then "" else generate_instruction_args_type instruction ++ "\n"
  | none => ""

/-- Decomposition of `generate_typescript_types`: header, account
interfaces in order, then the per-instruction args records. -/
theorem generate_typescript_types_decomp (idl : Idl) :
    generate_typescript_types idl =
      ts_types_head
      ++ str_concat ((idl.accounts.getD []).map (fun account => generate_typescript_type account ++ "\n"))
      ++ str_concat ((idl.instructions.getD []).map ts_args_type_entry) := by
  simp only [generate_typescript_types]
  rw [foldl_append_concat]
  have hfun : (fun (t : String) (instruction : Instruction) =>
      match instruction.args with
      | some args => if args.isEmpty then t else t ++ (generate_instruction_args_type instruction ++ "\n")
      | none => t) = fun t instruction => t ++ ts_args_type_entry instruction := by
    funext t instruction
    cases h : instruction.args with
    | none => simp [ts_args_type_entry, h, String.append_empty]
    | some args =>
      cases he : args.isEmpty <;> simp [ts_args_type_entry, h, he, String.append_empty]
  rw [hfun, foldl_append_concat, String.append_assoc]

/-- Decomposition of `generate_typescript_client`: fixed header with
the program id, then one method per instruction in document order,
then the closing brace. -/
theorem generate_typescript_client_decomp (idl : Idl) (program_name : String) :
    generate_typescript_client idl program_name =
      ts_client_head (generate_type_imports idl) (idl.address.getD "11111111111111111111111111111111")
        (to_pascal_case program_name)
      ++ str_concat ((idl.instructions.getD []).map generate_typescript_method)
      ++ "\x7d\n" := by
  simp only [generate_typescript_client]
  rw [foldl_append_concat]

/-- A language list containing a name that fails validation makes the
up-front validation loop fail. -/
theorem validate_languages_error :
    ∀ (languages : List String),
      (∃ l ∈ languages, ascii_lower l ∉ valid_languages) →
      ∃ e, validate_languages languages = Except.error e := by
  intro languages
  induction languages with
  | nil => rintro ⟨l, hl, _⟩; cases hl
  | cons a rest ih =>
    rintro ⟨l, hl, hinv⟩
    by_cases ha : ascii_lower a ∈ valid_languages
    · rcases List.mem_cons.mp hl with rfl | hmem
      · exact absurd ha hinv
      · obtain ⟨e, he⟩ := ih ⟨l, hmem, hinv⟩
        exact ⟨e, by simp [validate_languages, validate_language_name, ha, he]⟩
    · refine ⟨"Unsupported language \x27" ++ a
        ++ "\x27. Available languages: " ++ join_sep ", " valid_languages, ?_⟩
      simp [validate_languages, validate_language_name, ha]

/-! ### Claim theorems -/

/-- C7: the case-conversion transforms satisfy the spec's concrete
equations — `to_pascal_case "mint_to" = "MintTo"`,
`to_camel_case "mint_to" = "mintTo"`, `to_pascal_case "" = ""`,
`to_pascal_case "a" = "A"`, `to_pascal_case "a__b" = "AB"` — and in
general `to_pascal_case` splits on underscores, uppercases each
segment's first character, drops empty segments and concatenates with
no separator (both transforms are total Lean functions). -/
theorem case_conversion_correct :
    to_pascal_case "mint_to" = "MintTo"
    ∧ to_camel_case "mint_to" = "mintTo"
    ∧ to_pascal_case "" = ""
    ∧ to_pascal_case "a" = "A"
    ∧ to_pascal_case "a__b" = "AB"
    ∧ ∀ s : String, to_pascal_case s =
        String.mk (List.flatten
          (((split_char '_' s.toList).filter (fun w => !w.isEmpty)).map capitalize_word)) := by
  refine ⟨rfl, rfl, rfl, rfl, rfl, ?_⟩
  have key : ∀ l : List (List Char),
      List.flatten (l.map capitalize_word) =
      List.flatten ((l.filter (fun w => !w.isEmpty)).map capitalize_word) := by
    intro l
    induction l with
    | nil => rfl
    | cons w rest ih =>
      cases w with
      | nil => simpa [capitalize_word] using ih
      | cons c cs => simp [capitalize_word, ih]
  intro s
  rw [to_pascal_case, key]

/-- C8: the TypeScript type mapper (the only type mapper in the code —
the Swift/Kotlin/Rust emitters generate no typed fields, so no type
mapping arises for them) is total and never returns an empty name:
every integer-width tag maps to `number`, `bool` to `boolean`,
`String` to `string`, the public-key tags to `PublicKey`, and every
unrecognized tag to `any`. -/
theorem map_type_total :
    (∀ t : String, map_to_typescript_type t ≠ "")
    ∧ (∀ t ∈ (["u8", "u16", "u32", "u64", "u128", "i8", "i16", "i32", "i64", "i128"] : List String),
        map_to_typescript_type t = "number")
    ∧ map_to_typescript_type "bool" = "boolean"
    ∧ map_to_typescript_type "String" = "string"
    ∧ map_to_typescript_type "Pubkey" = "PublicKey"
    ∧ map_to_typescript_type "publicKey" = "PublicKey"
    ∧ ∀ t : String,
        t ∉ (["u8", "u16", "u32", "u64", "u128", "i8", "i16", "i32", "i64", "i128",
              "bool", "String", "Pubkey", "publicKey"] : List String) →
        map_to_typescript_type t = "any" := by
  refine ⟨?_, ?_, rfl, rfl, rfl, rfl, ?_⟩
  · intro t
    unfold map_to_typescript_type
    split_ifs <;> decide
  · intro t ht
    simp only [map_to_typescript_type, if_pos ht]
  · intro t ht
    simp only [List.mem_cons, List.not_mem_nil, or_false, not_or] at ht
    obtain ⟨h1, h2, h3, h4, h5, h6, h7, h8, h9, h10, h11, h12, h13, h14⟩ := ht
    simp [map_to_typescript_type, h1, h2, h3, h4, h5, h6, h7, h8, h9, h10, h11, h12, h13, h14]

/-- Witness for C8 at the concrete tags `u128` and the unrecognized
tag `foo`. -/
theorem map_type_total_witness :
    map_to_typescript_type "u128" = "number" ∧ map_to_typescript_type "foo" = "any" :=
  ⟨map_type_total.2.1 "u128" (by decide),
   map_type_total.2.2.2.2.2.2 "foo" (by decide)⟩

/-! ### Concrete fixtures -/

/-- The end-to-end IDL of the spec: address
`Fg6PaFpoGXkYsidMpWTK6W2BeZ7FEfcYkg476zPFsLnS`, one instruction
`initialize` with one account `payer` (mut, signer) and no args. -/
def idl_c5 : Idl :=
  ⟨some "Fg6PaFpoGXkYsidMpWTK6W2BeZ7FEfcYkg476zPFsLnS",
   some [⟨some "initialize", some [⟨some "payer", some true, some true⟩], some []⟩],
   none⟩

/-- The directory entry carrying `idl_c5` as `counter.json`. -/
def entry_c5 : DirEntry := ⟨"counter", some "json", some idl_c5⟩

/-- An IDL holding the spec's account-ordering example: one instruction
with accounts `payer` (mut, signer) then `vault` (mut, not signer). -/
def idl_two_accounts : Idl :=
  ⟨some "Fg6PaFpoGXkYsidMpWTK6W2BeZ7FEfcYkg476zPFsLnS",
   some [⟨some "transfer_funds",
          some [⟨some "payer", some true, some true⟩,
                ⟨some "vault", some true, some false⟩],
          some []⟩],
   none⟩

/-- The directory entry carrying `idl_two_accounts` as `myprog.json`. -/
def entry_two : DirEntry := ⟨"myprog", some "json", some idl_two_accounts⟩

/-- A minimal parseable IDL (every optional part absent). -/
def idl_min : Idl := ⟨none, none, none⟩

/-- A well-formed entry (`good.json`, parses to `idl_min`). -/
def entry_good : DirEntry := ⟨"good", some "json", some idl_min⟩

/-- An entry whose contents fail to parse (`bad.json`). -/
def entry_bad : DirEntry := ⟨"bad", some "json", none⟩

/-- The four TypeScript files emitted for `entry_good`. -/
def ts_files_good : List WrittenFile :=
  [⟨["typescript", "good", "index.ts"], generate_typescript_client idl_min "good"⟩,
   ⟨["typescript", "good", "types.ts"], generate_typescript_types idl_min⟩,
   ⟨["typescript", "good", "package.json"], ts_package_json "good"⟩,
   ⟨["typescript", "good", "tsconfig.json"], ts_tsconfig⟩]

/-- C5 counterexample: for the spec's end-to-end input, the emitted
manifest does not name the package `counter-sdk` (its `name` field is
the npm-scoped `@typhoon/counter-sdk`), and the emitted client has no
parameter literally named `payer` (the accounts travel inside a single
`accounts` record parameter). -/
theorem ts_end_to_end_cex :
    is_sub_str "\"name\": \"counter-sdk\"" (ts_package_json "counter") = false
    ∧ is_sub_str "initialize(payer" (generate_typescript_client idl_c5 "counter") = false := by
  constructor <;> rfl

/-- C5 (amended): running `generate_bindings` on `counter.json` holding
`idl_c5` with languages `["typescript"]` succeeds and writes the four
TypeScript files; the client source contains the program address
exactly once and an `initialize` method whose single accounts-record
parameter has the single entry `payer` (and no args parameter); the
manifest's package name is `@typhoon/counter-sdk` — the npm-scoped
form of `counter-sdk` — with version `0.1.0`. -/
theorem ts_end_to_end :
    (generate_bindings ["typescript"] true [entry_c5]).2 =
        Except.ok "Generated bindings for 1 programs in 1 languages"
    ∧ (generate_bindings ["typescript"] true [entry_c5]).1.written =
        [⟨["typescript", "counter", "index.ts"], generate_typescript_client idl_c5 "counter"⟩,
         ⟨["typescript", "counter", "types.ts"], generate_typescript_types idl_c5⟩,
         ⟨["typescript", "counter", "package.json"], ts_package_json "counter"⟩,
         ⟨["typescript", "counter", "tsconfig.json"], ts_tsconfig⟩]
    ∧ occ_str "Fg6PaFpoGXkYsidMpWTK6W2BeZ7FEfcYkg476zPFsLnS"
        (generate_typescript_client idl_c5 "counter") = 1
    ∧ is_sub_str "async initialize(accounts: \x7b\n    payer: PublicKey;\n  \x7d) \x7b\n"
        (generate_typescript_client idl_c5 "counter") = true
    ∧ is_sub_str ", args:" (generate_typescript_client idl_c5 "counter") = false
    ∧ is_sub_str "\"name\": \"@typhoon/counter-sdk\"" (ts_package_json "counter") = true
    ∧ is_sub_str "\"version\": \"0.1.0\"" (ts_package_json "counter") = true := by
  refine ⟨rfl, rfl, rfl, rfl, rfl, rfl, rfl⟩

/-- C3 counterexample: for the spec's ordering example (accounts
`payer` then `vault`) under the supported target language `swift`, the
emitted package contains no account-reference list at all — neither
account name nor any signer/writable flag occurs in any written file —
so the claim's "for every supported target language" fails (the Swift,
Kotlin and Rust emitters generate method-less stubs). -/
theorem ts_accounts_order_cex :
    (generate_bindings ["swift"] true [entry_two]).1.written.length = 2
    ∧ (generate_bindings ["swift"] true [entry_two]).1.written.all
        (fun f => !(is_sub_str "payer" f.content) && !(is_sub_str "vault" f.content)
          && !(is_sub_str "isSigner" f.content) && !(is_sub_str "isWritable" f.content)) = true
    ∧ (generate_bindings ["swift"] true [entry_two]).2 =
        Except.ok "Generated bindings for 1 programs in 1 languages" := by
  refine ⟨rfl, rfl, rfl⟩

/-- C3 (amended): for the TypeScript target — the only target that
emits per-instruction client operations — the emitted method renders
the `keys:` list as exactly the in-order map of `ts_account_key` over
`instruction.accounts` (one entry per account, `isMut`/`isSigner`
copied verbatim with absent flags defaulting to `false`), and the
constructed instruction's data payload is the zero-length placeholder
`Buffer.alloc(0)`. -/
theorem ts_accounts_order_preserved (instruction : Instruction) :
    generate_typescript_method instruction =
      "\n  async " ++ to_camel_case (instruction.name.getD "unknown") ++ "(" ++ "accounts: \x7b"
      ++ str_concat ((instruction.accounts.getD []).map ts_account_param)
      ++ "\n  \x7d"
      ++ (if (instruction.args.getD []).isEmpty then ""
          else ", args: " ++ to_pascal_case (instruction.name.getD "unknown") ++ "Args")
      ++ ") \x7b\n"
      ++ "    // TODO: Implement instruction encoding\n"
      ++ "    const instruction = new TransactionInstruction(\x7b\n"
      ++ "      keys: [\n"
      ++ str_concat ((instruction.accounts.getD []).map ts_account_key)
      ++ "      ],\n"
      ++ "      programId: this.programId,\n"
      ++ "      data: Buffer.alloc(0), // TODO: Encode instruction data\n"
      ++ "    \x7d);\n"
      ++ "    return instruction;\n"
      ++ "  \x7d\n" :=
  generate_typescript_method_decomp instruction

/-- C6: args-parameter gating.  An instruction with an absent or empty
`args` sequence yields a method with no additional arguments-record
parameter and contributes no `...Args` type to `types.ts`; a non-empty
`args` sequence yields exactly one additional parameter
`, args: {PascalCase(name)}Args` and the matching
`export interface {PascalCase(name)}Args` record. -/
theorem ts_args_gating (instruction : Instruction) (idl : Idl) :
    (generate_typescript_method instruction =
      "\n  async " ++ to_camel_case (instruction.name.getD "unknown") ++ "(" ++ "accounts: \x7b"
      ++ str_concat ((instruction.accounts.getD []).map ts_account_param)
      ++ "\n  \x7d"
      ++ (if (instruction.args.getD []).isEmpty then ""
          else ", args: " ++ to_pascal_case (instruction.name.getD "unknown") ++ "Args")
      ++ ") \x7b\n"
      ++ "    // TODO: Implement instruction encoding\n"
      ++ "    const instruction = new TransactionInstruction(\x7b\n"
      ++ "      keys: [\n"
      ++ str_concat ((instruction.accounts.getD []).map ts_account_key)
      ++ "      ],\n"
      ++ "      programId: this.programId,\n"
      ++ "      data: Buffer.alloc(0), // TODO: Encode instruction data\n"
      ++ "    \x7d);\n"
      ++ "    return instruction;\n"
      ++ "  \x7d\n")
    ∧ (generate_typescript_types idl =
        ts_types_head
        ++ str_concat ((idl.accounts.getD []).map (fun account => generate_typescript_type account ++ "\n"))
        ++ str_concat ((idl.instructions.getD []).map ts_args_type_entry))
    ∧ (ts_args_type_entry instruction =
        if (instruction.args.getD []).isEmpty then ""
        else generate_instruction_args_type instruction ++ "\n")
    ∧ (generate_instruction_args_type instruction =
        "export interface " ++ to_pascal_case (instruction.name.getD "unknown") ++ "Args \x7b\n"
        ++ str_concat ((instruction.args.getD []).map ts_field_line)
        ++ "\x7d\n") := by
  refine ⟨generate_typescript_method_decomp instruction,
          generate_typescript_types_decomp idl, ?_, ?_⟩
  · cases h : instruction.args with
    | none => simp [ts_args_type_entry, h]
    | some args => cases he : args.isEmpty <;> simp [ts_args_type_entry, h, he]
  · simp only [generate_instruction_args_type]
    rw [foldl_append_concat, String.append_assoc, String.append_assoc]

/-- C9: the Swift, Kotlin and Rust emitters are functions of the IDL
file name (stem) and program name only — two entries with the same
stem produce identical output whatever their contents, since the
generators never look at the parsed document — and the program-id
literal embedded in each generated client is the file stem: for stem
`counter` with document address `Fg6Pa...`, the stem occurs as the
program-id literal while the document's address does not occur at
all. -/
theorem stub_bindings_stem_only :
    (∀ (f g : DirEntry) (program_name : String), f.stem = g.stem →
        dispatch_language "swift" f program_name = dispatch_language "swift" g program_name
        ∧ dispatch_language "kotlin" f program_name = dispatch_language "kotlin" g program_name
        ∧ dispatch_language "rust" f program_name = dispatch_language "rust" g program_name)
    ∧ occ_str "Fg6PaFpoGXkYsidMpWTK6W2BeZ7FEfcYkg476zPFsLnS" (rust_lib "counter" "counter") = 0
    ∧ occ_str "pubkey!(\"counter\")" (rust_lib "counter" "counter") = 1
    ∧ occ_str "Fg6PaFpoGXkYsidMpWTK6W2BeZ7FEfcYkg476zPFsLnS" (swift_client "counter" "counter") = 0
    ∧ occ_str "programId: PublicKey = \"counter\"" (swift_client "counter" "counter") = 1
    ∧ occ_str "Fg6PaFpoGXkYsidMpWTK6W2BeZ7FEfcYkg476zPFsLnS" (kotlin_client "counter" "counter") = 0
    ∧ occ_str "programId: PublicKey = PublicKey(\"counter\")" (kotlin_client "counter" "counter") = 1 := by
  refine ⟨?_, rfl, rfl, rfl, rfl, rfl, rfl⟩
  intro f g program_name h
  refine ⟨?_, ?_, ?_⟩ <;> simp [dispatch_language, h]

/-- Witness for C9: the entry carrying the end-to-end IDL and an entry
with the same stem whose contents failed to parse produce identical
Swift, Kotlin and Rust output. -/
theorem stub_bindings_stem_only_witness :
    dispatch_language "swift" entry_c5 "counter" =
        dispatch_language "swift" ⟨"counter", some "json", none⟩ "counter"
    ∧ dispatch_language "kotlin" entry_c5 "counter" =
        dispatch_language "kotlin" ⟨"counter", some "json", none⟩ "counter"
    ∧ dispatch_language "rust" entry_c5 "counter" =
        dispatch_language "rust" ⟨"counter", some "json", none⟩ "counter" :=
  stub_bindings_stem_only.1 entry_c5 ⟨"counter", some "json", none⟩ "counter" rfl

/-- C10: a requested language name that passes the lowercased up-front
validation but is none of the exact (case-sensitive) dispatch strings
— e.g. a case variant like `TS` or `Rust` — emits nothing for its
pairs: the run succeeds, no file is written, `completed` stays `0`,
only the warning is recorded, and the final summary still counts the
language (`... in 1 languages`). -/
theorem case_variant_language_skipped
    (language : String) (entry : DirEntry)
    (hvalid : ascii_lower language ∈ valid_languages)
    (hmiss : language ∉ (["typescript", "ts", "swift", "kotlin", "rust"] : List String))
    (hext : entry.ext = some "json") :
    generate_bindings [language] true [entry] =
      (⟨[], ["Unsupported language: " ++ language], 0⟩,
        Except.ok "Generated bindings for 1 programs in 1 languages") := by
  simp only [List.mem_cons, List.not_mem_nil, or_false, not_or] at hmiss
  obtain ⟨n1, n2, n3, n4, n5⟩ := hmiss
  simp [generate_bindings, validate_languages, validate_language_name, hvalid, hext,
        run_files, run_languages, run_language, dispatch_language, n1, n2, n3, n4, n5]
  rfl

/-- Witness for C10 at the case variant `TS` and a well-formed
entry. -/
theorem case_variant_language_skipped_witness :
    generate_bindings ["TS"] true [entry_good] =
      (⟨[], ["Unsupported language: TS"], 0⟩,
        Except.ok "Generated bindings for 1 programs in 1 languages") :=
  case_variant_language_skipped "TS" entry_good (by decide) (by decide) rfl

/-- C1 counterexample: requesting the unknown language `cobol` next to
the valid `swift` against a well-formed program aborts the entire run
at up-front validation — the result is an error and nothing at all is
generated (not even for `swift`) — contradicting "non-fatal, skipped
with a warning, batch continues". -/
theorem unsupported_language_aborts :
    generate_bindings ["cobol", "swift"] true [entry_good] =
      (⟨[], [], 0⟩,
        Except.error
          "Unsupported language \x27cobol\x27. Available languages: typescript, ts, swift, kotlin, rust") := by
  rfl

/-- C1 (amended): a requested language name whose lowercase form is
not in the supported set is fatal for the whole invocation (up-front
validation rejects it before anything is generated); only a name that
passes validation but misses the case-sensitive dispatch is skipped
with a warning while the loop continues. -/
theorem unsupported_language_handling :
    (∀ (languages : List String) (idl_dir_exists : Bool) (entries : List DirEntry),
        (∃ l ∈ languages, ascii_lower l ∉ valid_languages) →
        ∃ e, generate_bindings languages idl_dir_exists entries = (⟨[], [], 0⟩, Except.error e))
    ∧ (∀ (st : GenState) (entry : DirEntry) (language : String),
        ascii_lower language ∈ valid_languages →
        language ∉ (["typescript", "ts", "swift", "kotlin", "rust"] : List String) →
        run_language st entry language =
          ({ st with warnings := st.warnings ++ ["Unsupported language: " ++ language] },
            Except.ok ())) := by
  constructor
  · intro languages idl_dir_exists entries hex
    obtain ⟨e, he⟩ := validate_languages_error languages hex
    exact ⟨e, by simp [generate_bindings, he]⟩
  · intro st entry language hvalid hmiss
    simp only [List.mem_cons, List.not_mem_nil, or_false, not_or] at hmiss
    obtain ⟨n1, n2, n3, n4, n5⟩ := hmiss
    simp [run_language, dispatch_language, n1, n2, n3, n4, n5]

/-- Witness for C1: `cobol` makes the whole run fail; the case variant
`Rust` passes validation and is skipped with a warning while the loop
continues. -/
theorem unsupported_language_handling_witness :
    (∃ e, generate_bindings ["cobol"] true [entry_good] = (⟨[], [], 0⟩, Except.error e))
    ∧ run_language ⟨[], [], 0⟩ entry_good "Rust" =
        (⟨[], ["Unsupported language: Rust"], 0⟩, Except.ok ()) := by
  constructor
  · exact unsupported_language_handling.1 ["cobol"] true [entry_good]
      ⟨"cobol", by decide, by decide⟩
  · exact unsupported_language_handling.2 ⟨[], [], 0⟩ entry_good "Rust" (by decide) (by decide)

/-- C2 counterexample: with two programs (`bad.json`, which fails to
parse, then `good.json`, well-formed) and language `typescript`, the
run aborts at the first pair with the parse error and nothing at all
is generated — the loop does not continue to the remaining program,
contradicting "abandons only that pair ... and the orchestration loop
continues". -/
theorem per_pair_failure_aborts_cex :
    generate_bindings ["typescript"] true [entry_bad, entry_good] =
      (⟨[], [], 0⟩, Except.error idl_parse_error) := by
  rfl

/-- C2 (amended): a per-pair failure propagates through the `?`
operator and aborts the whole batch at that pair: output written for
earlier pairs is kept, but the failing program and every pair after it
are abandoned and the invocation returns the error (only an unmatched
language name is skipped with the loop continuing). -/
theorem per_pair_failure_aborts
    (g b : DirEntry) (rest : List DirEntry) (w : List WrittenFile)
    (hg : g.ext = some "json") (hb : b.ext = some "json") (hbp : b.parsed = none)
    (hok : generate_typescript_bindings g g.stem = Except.ok w) :
    generate_bindings ["typescript"] true (g :: b :: rest) =
      (⟨w, [], 1⟩, Except.error idl_parse_error) := by
  have hv : validate_languages ["typescript"] = Except.ok () := rfl
  have hd : dispatch_language "typescript" g g.stem = Except.ok (some w) := by
    simp [dispatch_language, hok, Except.map]
  have hd2 : dispatch_language "typescript" b b.stem = Except.error idl_parse_error := by
    simp [dispatch_language, generate_typescript_bindings, hbp, Except.map]
  simp [generate_bindings, hv, hg, hb, run_files, run_languages, run_language, hd, hd2]

/-- Witness for C2: `good.json` first, then the unparseable
`bad.json`: the four files of the first program are written, then the
batch aborts with the parse error. -/
theorem per_pair_failure_aborts_witness :
    generate_bindings ["typescript"] true [entry_good, entry_bad] =
      (⟨ts_files_good, [], 1⟩, Except.error idl_parse_error) :=
  per_pair_failure_aborts entry_good entry_bad [] ts_files_good rfl rfl rfl rfl

/-- C4: a missing IDL directory, or one with no `.json` file, is fatal
for the whole invocation whatever the requested language list: nothing
is generated and the result is a caller-visible error. -/
theorem no_input_fatal
    (languages : List String) (idl_dir_exists : Bool) (entries : List DirEntry)
    (h : idl_dir_exists = false ∨ entries.filter (fun e => e.ext = some "json") = []) :
    (generate_bindings languages idl_dir_exists entries).1 = ⟨[], [], 0⟩
    ∧ ∃ msg, (generate_bindings languages idl_dir_exists entries).2 = Except.error msg := by
  cases hv : validate_languages languages with
  | error e =>
    exact ⟨by simp [generate_bindings, hv], e, by simp [generate_bindings, hv]⟩
  | ok u =>
    cases u
    rcases h with h | h
    · subst h
      exact ⟨by simp [generate_bindings, hv],
             "No IDL files found. Run \x27typhoon build --idl\x27 first.",
             by simp [generate_bindings, hv]⟩
    · cases idl_dir_exists with
      | false =>
        exact ⟨by simp [generate_bindings, hv],
               "No IDL files found. Run \x27typhoon build --idl\x27 first.",
               by simp [generate_bindings, hv]⟩
      | true =>
        exact ⟨by simp [generate_bindings, hv, h],
               "No IDL files found in target/idl/",
               by simp [generate_bindings, hv, h]⟩

/-- Witness for C4: an existing directory containing only `notes.txt`
(no `.json` file) with language `typescript` yields an error and an
empty generation state. -/
theorem no_input_fatal_witness :
    (generate_bindings ["typescript"] true [⟨"notes", some "txt", none⟩]).1 = ⟨[], [], 0⟩
    ∧ ∃ msg, (generate_bindings ["typescript"] true [⟨"notes", some "txt", none⟩]).2 =
        Except.error msg :=
  no_input_fatal ["typescript"] true [⟨"notes", some "txt", none⟩] (Or.inr rfl)

/-- The spec's ordering-example instruction: accounts `payer` (mut,
signer) then `vault` (mut, not signer), no args. -/
def instr_two : Instruction :=
  ⟨some "transfer_funds",
   some [⟨some "payer", some true, some true⟩, ⟨some "vault", some true, some false⟩],
   some []⟩

/-- Witness for C3 at the spec's two-account instruction: the `keys:`
entries for `payer` and `vault` appear adjacently and in that order in
the emitted method. -/
theorem ts_accounts_order_preserved_witness :
    is_sub_str
      (ts_account_key ⟨some "payer", some true, some true⟩
        ++ ts_account_key ⟨some "vault", some true, some false⟩)
      (generate_typescript_method instr_two) = true := by
  rw [ts_accounts_order_preserved instr_two]
  rfl

/-- Witness for C6: the two-account instruction (empty args)
contributes nothing to `types.ts`, and the minimal document's
`types.ts` is the bare header. -/
theorem ts_args_gating_witness :
    ts_args_type_entry instr_two = "" ∧ generate_typescript_types idl_min = ts_types_head := by
  constructor
  · have h := (ts_args_gating instr_two idl_min).2.2.1
    simpa using h
  · have h := (ts_args_gating instr_two idl_min).2.1
    simpa using h

/-- Witness for C7's general clause at the input `mint_to`. -/
theorem case_conversion_correct_witness :
    to_pascal_case "mint_to" =
      String.mk (List.flatten
        (((split_char '_' "mint_to".toList).filter (fun w => !w.isEmpty)).map capitalize_word)) :=
  case_conversion_correct.2.2.2.2.2 "mint_to"
